import Mathlib

/-
Shallow embedding of the CC-F25/preferences-microservice FastAPI service
(src/main.py, src/models/preferences.py, src/models/preferences_sql.py).

Modelling choices:
- A stored row (SQLAlchemy model `PreferencesDB`) is a structure; UUID ids are
  modelled as an opaque Nat drawn from a fresh counter (`uuid4` per-insert
  column default), and DateTime values as Nat.
- The database session is a `DBState`: the list of rows in insertion order
  (`.first()` on a filtered query returns the first list element matching the
  filter), plus the id counter and a tick counter.
- `datetime.utcnow()` is modelled by an ambient clock `time : Nat → Nat`
  applied to the state's tick counter; every call of `utcnow` in the Python
  code (including each evaluation of a column default) consumes one tick.
  In the create branch of POST /, the handler's `now = datetime.utcnow()`
  (main.py line 88) is read at the current tick and discarded, and the column
  defaults for `created_at` and `updated_at` are two further separate reads.
- Pydantic `PreferenceUpdate` with `model_dump(exclude_unset=True)`
  distinguishes unset from explicitly-null fields, so each of its fields is
  an `Option (Option _)`: `none` = not mentioned in the body, `some v` =
  explicitly provided with value `v` (where `v = none` is an explicit null).
- `raise HTTPException(404)` is an `Except.error ApiError.notFound`.
-/

namespace Prefs

/-- A stored row of the `preferences` table (src/models/preferences_sql.py,
class `PreferencesDB`). The table does have a nullable `location_area`
column (String(255)), even though no handler ever writes it. -/
structure PreferencesDB where
  id : Nat
  user_id : String
  max_budget : Option Int
  min_size : Option Int
  location_area : Option String
  rooms : Option Int
  created_at : Nat
  updated_at : Nat
deriving Repr, DecidableEq

/-- Column names of the `preferences` table, in declaration order
(src/models/preferences_sql.py lines 10-18). -/
def preferencesDBColumns : List String :=
  ["id", "user_id", "max_budget", "min_size", "location_area", "rooms",
   "created_at", "updated_at"]

/-- Wire payload for POST / (src/models/preferences.py, `PreferenceCreate`,
inheriting the fields of `PreferenceBase`). Plain optionals: pydantic gives
unset fields the default `None`, indistinguishable from explicit null. -/
structure PreferenceCreate where
  user_id : String
  max_budget : Option Int
  min_size : Option Int
  location_area : Option (List String)
  rooms : Option Int
deriving Repr, DecidableEq

/-- Wire payload for PATCH /{userId} (src/models/preferences.py,
`PreferenceUpdate`). Outer `Option` = was the key present in the body
(what `model_dump(exclude_unset=True)` reports); inner = its value. -/
structure PreferenceUpdate where
  max_budget : Option (Option Int)
  min_size : Option (Option Int)
  location_area : Option (Option (List String))
  rooms : Option (Option Int)
deriving Repr, DecidableEq

/-- Response shape (src/models/preferences.py, `PreferenceRead`). -/
structure PreferenceRead where
  id : Nat
  user_id : String
  max_budget : Option Int
  min_size : Option Int
  location_area : Option (List String)
  rooms : Option Int
  created_at : Nat
  updated_at : Nat
deriving Repr, DecidableEq

/-- The only domain error the handlers raise:
`HTTPException(status_code=404, detail="Preferences not found ...")`. -/
inductive ApiError where
  | notFound
deriving Repr, DecidableEq

/-- The database session state: stored rows in insertion order, the fresh-id
counter backing the `uuid4` id default, and the clock tick counter. -/
structure DBState where
  rows : List PreferencesDB
  nextId : Nat
  tick : Nat
deriving Repr, DecidableEq

/-- In-place mutation of the first row matching a predicate, as the ORM does
when the handler assigns fields of the object returned by
`query(...).filter(...).first()` and commits. -/
def replaceFirst (p : PreferencesDB → Bool) (f : PreferencesDB → PreferencesDB) :
    List PreferencesDB → List PreferencesDB
  | [] => []
  | r :: rs => if p r then f r :: rs else r :: replaceFirst p f rs

/-- Removal of the first row matching a predicate, as `db.delete(pref)` does
for the object returned by `.first()`. -/
def deleteFirst (p : PreferencesDB → Bool) :
    List PreferencesDB → List PreferencesDB
  | [] => []
  | r :: rs => if p r then rs else r :: deleteFirst p rs

/-- The projection every handler applies when building its `PreferenceRead`
response: copy the stored fields and force `location_area=None`. -/
def projectRead (p : PreferencesDB) : PreferenceRead :=
  { id := p.id
    user_id := p.user_id
    max_budget := p.max_budget
    min_size := p.min_size
    location_area := none
    rooms := p.rooms
    created_at := p.created_at
    updated_at := p.updated_at }

/-- GET / (src/main.py `get_all_preferences`): list every row, projected to
the wire shape with `location_area=None`. -/
def get_all_preferences (s : DBState) : List PreferenceRead :=
  s.rows.map projectRead

/-- The field assignments the POST / update branch performs on the existing
ORM object (main.py lines 91-95): overwrite the three preference fields from
the payload, ignore `location_area`, stamp `updated_at := now`. -/
def postUpd (payload : PreferenceCreate) (now : Nat) (q : PreferencesDB) :
    PreferencesDB :=
  { q with
      max_budget := payload.max_budget
      min_size := payload.min_size
      rooms := payload.rooms
      updated_at := now }

/-- The field assignments the PATCH handler performs on the existing ORM
object (main.py lines 213-221): overwrite exactly the keys present in
`model_dump(exclude_unset=True)`, ignore `location_area` on purpose, stamp
`updated_at`. -/
def patchUpd (payload : PreferenceUpdate) (now : Nat) (q : PreferencesDB) :
    PreferencesDB :=
  { q with
      max_budget := payload.max_budget.getD q.max_budget
      min_size := payload.min_size.getD q.min_size
      rooms := payload.rooms.getD q.rooms
      updated_at := now }

/-- POST / (src/main.py `create_or_update_preferences`): look up the first
row with the payload's `user_id`; if found, apply `postUpd` to it; otherwise
insert a new row whose `id`, `created_at`, `updated_at` come from the column
defaults (fresh uuid and two further separate `utcnow` reads; the row's
`location_area` is not passed, so it is NULL). Returns the projected row and
the new state. -/
def create_or_update_preferences (time : Nat → Nat) (payload : PreferenceCreate)
    (s : DBState) : PreferenceRead × DBState :=
  let now := time s.tick
  match s.rows.find? (fun r => r.user_id == payload.user_id) with
  | some r =>
      (projectRead (postUpd payload now r),
       { s with
           rows := replaceFirst (fun q => q.user_id == payload.user_id)
             (postUpd payload now) s.rows
           tick := s.tick + 1 })
  | none =>
      let newPref : PreferencesDB :=
        { id := s.nextId
          user_id := payload.user_id
          max_budget := payload.max_budget
          min_size := payload.min_size
          location_area := none
          rooms := payload.rooms
          created_at := time (s.tick + 1)
          updated_at := time (s.tick + 2) }
      (projectRead newPref,
       { s with
           rows := s.rows ++ [newPref]
           nextId := s.nextId + 1
           tick := s.tick + 3 })

/-- GET /{userId} (src/main.py `get_user_preferences`): 404 when no row has
that `user_id`, otherwise the projected row. -/
def get_user_preferences (userId : String) (s : DBState) :
    Except ApiError PreferenceRead :=
  match s.rows.find? (fun r => r.user_id == userId) with
  | none => .error .notFound
  | some p => .ok (projectRead p)

/-- DELETE /{userId} (src/main.py `delete_user_preferences`): remove the
first row with that `user_id` if present; always returns 204 (no error),
doing nothing when no row matches. -/
def delete_user_preferences (userId : String) (s : DBState) : DBState :=
  match s.rows.find? (fun r => r.user_id == userId) with
  | none => s
  | some _ =>
      { s with rows := deleteFirst (fun r => r.user_id == userId) s.rows }

/-- PATCH /{userId} (src/main.py `update_user_preferences`): 404 when no row
has that `user_id`; otherwise overwrite exactly the fields whose key appears
in `model_dump(exclude_unset=True)` (outer `some`), ignore `location_area`
on purpose, stamp `updated_at := utcnow()`, and return the projected row. -/
def update_user_preferences (time : Nat → Nat) (payload : PreferenceUpdate)
    (userId : String) (s : DBState) :
    Except ApiError (PreferenceRead × DBState) :=
  match s.rows.find? (fun r => r.user_id == userId) with
  | none => .error .notFound
  | some r =>
      .ok (projectRead (patchUpd payload (time s.tick) r),
           { s with
               rows := replaceFirst (fun q => q.user_id == userId)
                 (patchUpd payload (time s.tick)) s.rows
               tick := s.tick + 1 })

/-- One state-mutating request (GET endpoints do not change state). -/
inductive Op where
  | post (payload : PreferenceCreate)
  | patchOp (userId : String) (payload : PreferenceUpdate)
  | deleteOp (userId : String)
deriving Repr

/-- Apply one mutating request to the state (a failed PATCH commits nothing). -/
def applyOp (time : Nat → Nat) (s : DBState) : Op → DBState
  | .post p => (create_or_update_preferences time p s).2
  | .patchOp u p =>
      match update_user_preferences time p u s with
      | .ok x => x.2
      | .error _ => s
  | .deleteOp u => delete_user_preferences u s

/-- Run a sequence of mutating requests. -/
def runOps (time : Nat → Nat) (ops : List Op) (s : DBState) : DBState :=
  ops.foldl (applyOp time) s

/-- Run a sequence of POST / calls. -/
def runPosts (time : Nat → Nat) (ps : List PreferenceCreate) (s : DBState) :
    DBState :=
  ps.foldl (fun st p => (create_or_update_preferences time p st).2) s

/-- Number of stored rows belonging to a user. -/
def countUser (u : String) (s : DBState) : Nat :=
  (s.rows.filter (fun r => r.user_id == u)).length

/-- Every stored row has a NULL `location_area`. -/
def allLocationNone (s : DBState) : Bool :=
  s.rows.all (fun r => r.location_area == none)

/-- A GET /{userId} outcome never carries a `location_area` value. -/
def readRespLocationNone : Except ApiError PreferenceRead → Bool
  | .ok r => r.location_area == none
  | .error _ => true

/-- A PATCH /{userId} outcome never carries a `location_area` value. -/
def patchRespLocationNone : Except ApiError (PreferenceRead × DBState) → Bool
  | .ok x => x.1.location_area == none
  | .error _ => true

/-- Sample stored row used to instantiate the theorems below. -/
def sampleRow : PreferencesDB :=
  { id := 0
    user_id := "u1"
    max_budget := some 4000
    min_size := some 900
    location_area := none
    rooms := some 2
    created_at := 0
    updated_at := 0 }

/-- Sample state holding exactly `sampleRow`. -/
def sampleState : DBState := { rows := [sampleRow], nextId := 1, tick := 1 }

/-- The state of a freshly created, empty database. -/
def emptyState : DBState := { rows := [], nextId := 0, tick := 0 }

/-- Sample POST / payload: same user as `sampleRow`, `rooms` only, with a
non-empty `location_area`. -/
def samplePost : PreferenceCreate :=
  { user_id := "u1"
    max_budget := none
    min_size := none
    location_area := some ["Williamsburg", "Bushwick"]
    rooms := some 5 }

/-- Sample PATCH body `{"rooms": 3}`. -/
def samplePatch : PreferenceUpdate :=
  { max_budget := none
    min_size := none
    location_area := none
    rooms := some (some 3) }

/-- Sample PATCH body `{}` (no key provided). -/
def emptyPatch : PreferenceUpdate :=
  { max_budget := none
    min_size := none
    location_area := none
    rooms := none }

theorem replaceFirst_find? (p : PreferencesDB → Bool) (f : PreferencesDB → PreferencesDB)
    (hf : ∀ x, p (f x) = p x) (l : List PreferencesDB) :
    (replaceFirst p f l).find? p = (l.find? p).map f := by
  induction l with
  | nil => rfl
  | cons x xs ih =>
      by_cases hx : p x
      · rw [replaceFirst, if_pos hx, List.find?_cons_of_pos _ ((hf x).trans hx),
          List.find?_cons_of_pos _ hx, Option.map_some']
      · rw [replaceFirst, if_neg hx, List.find?_cons_of_neg _ hx,
          List.find?_cons_of_neg _ hx, ih]

theorem replaceFirst_filter_length (p q : PreferencesDB → Bool)
    (f : PreferencesDB → PreferencesDB) (hq : ∀ x, q (f x) = q x)
    (l : List PreferencesDB) :
    ((replaceFirst p f l).filter q).length = (l.filter q).length := by
  induction l with
  | nil => rfl
  | cons x xs ih =>
      by_cases hx : p x
      · rw [replaceFirst, if_pos hx]
        simp only [List.filter_cons, hq x]
        by_cases hqx : q x <;> simp [hqx]
      · rw [replaceFirst, if_neg hx]
        simp only [List.filter_cons]
        by_cases hqx : q x <;> simp [hqx, ih]

theorem replaceFirst_all (p q : PreferencesDB → Bool)
    (f : PreferencesDB → PreferencesDB) (hq : ∀ x, q (f x) = q x)
    (l : List PreferencesDB) :
    (replaceFirst p f l).all q = l.all q := by
  induction l with
  | nil => rfl
  | cons x xs ih =>
      by_cases hx : p x
      · rw [replaceFirst, if_pos hx]
        simp [hq x]
      · rw [replaceFirst, if_neg hx]
        simp [ih]

theorem deleteFirst_all (p q : PreferencesDB → Bool) (l : List PreferencesDB)
    (h : l.all q = true) : (deleteFirst p l).all q = true := by
  induction l with
  | nil => exact h
  | cons x xs ih =>
      rw [List.all_cons, Bool.and_eq_true] at h
      by_cases hx : p x
      · rw [deleteFirst, if_pos hx]
        exact h.2
      · rw [deleteFirst, if_neg hx, List.all_cons, Bool.and_eq_true]
        exact ⟨h.1, ih h.2⟩

theorem deleteFirst_of_find?_none (p : PreferencesDB → Bool) (l : List PreferencesDB)
    (h : l.find? p = none) : deleteFirst p l = l := by
  induction l with
  | nil => rfl
  | cons x xs ih =>
      rw [List.find?_eq_none] at h
      have hx : ¬ p x = true := h x (List.mem_cons_self x xs)
      rw [deleteFirst, if_neg hx, ih (List.find?_eq_none.mpr fun y hy => h y (List.mem_cons_of_mem x hy))]

theorem filter_length_pos_of_find? (p : PreferencesDB → Bool) (l : List PreferencesDB)
    (r : PreferencesDB) (h : l.find? p = some r) : 1 ≤ (l.filter p).length := by
  have hr : r ∈ l.filter p :=
    List.mem_filter.mpr ⟨List.mem_of_find?_eq_some h, List.find?_some h⟩
  exact List.length_pos.mpr (List.ne_nil_of_mem hr)

theorem filter_eq_nil_of_find?_none (p : PreferencesDB → Bool) (l : List PreferencesDB)
    (h : l.find? p = none) : l.filter p = [] :=
  List.filter_eq_nil_iff.mpr (List.find?_eq_none.mp h)

theorem post_countUser_of_ne (time : Nat → Nat) (p : PreferenceCreate) (s : DBState)
    (u : String) (hpu : p.user_id ≠ u) :
    countUser u (create_or_update_preferences time p s).2 = countUser u s := by
  unfold create_or_update_preferences countUser
  cases hfind : s.rows.find? (fun r => r.user_id == p.user_id) with
  | some r =>
      simp only [hfind]
      exact replaceFirst_filter_length (fun q => q.user_id == p.user_id)
        (fun r => r.user_id == u) (postUpd p (time s.tick)) (fun x => rfl) s.rows
  | none =>
      simp only [hfind]
      have : ∀ l₁ l₂ : List PreferencesDB,
          (l₁ ++ l₂).filter (fun r => r.user_id == u)
            = l₁.filter (fun r => r.user_id == u) ++ l₂.filter (fun r => r.user_id == u) :=
        fun l₁ l₂ => List.filter_append l₁ l₂
      rw [this]
      simp [List.filter_cons, beq_eq_false_iff_ne.mpr hpu]

theorem post_countUser_of_eq (time : Nat → Nat) (p : PreferenceCreate) (s : DBState)
    (u : String) (hpu : p.user_id = u) (h : countUser u s ≤ 1) :
    countUser u (create_or_update_preferences time p s).2 = 1 := by
  subst hpu
  unfold create_or_update_preferences
  unfold countUser at h ⊢
  cases hfind : s.rows.find? (fun r => r.user_id == p.user_id) with
  | some r =>
      simp only [hfind]
      rw [replaceFirst_filter_length (fun q => q.user_id == p.user_id)
        (fun r => r.user_id == p.user_id) (postUpd p (time s.tick)) (fun x => rfl) s.rows]
      have h1 := filter_length_pos_of_find? _ _ _ hfind
      omega
  | none =>
      simp only [hfind]
      have : ∀ l₁ l₂ : List PreferencesDB,
          (l₁ ++ l₂).filter (fun r => r.user_id == p.user_id)
            = l₁.filter (fun r => r.user_id == p.user_id)
              ++ l₂.filter (fun r => r.user_id == p.user_id) :=
        fun l₁ l₂ => List.filter_append l₁ l₂
      rw [this, filter_eq_nil_of_find?_none _ _ hfind]
      simp [List.filter_cons]

theorem runPosts_countUser_le (time : Nat → Nat) (u : String)
    (ps : List PreferenceCreate) (s : DBState) (h : countUser u s ≤ 1) :
    countUser u (runPosts time ps s) ≤ 1 := by
  induction ps generalizing s with
  | nil => exact h
  | cons p ps ih =>
      show countUser u (runPosts time ps (create_or_update_preferences time p s).2) ≤ 1
      apply ih
      by_cases hpu : p.user_id = u
      · rw [post_countUser_of_eq time p s u hpu h]
      · rw [post_countUser_of_ne time p s u hpu]
        exact h

theorem runPosts_countUser_eq_one (time : Nat → Nat) (u : String)
    (ps : List PreferenceCreate) (s : DBState) (h : countUser u s = 1) :
    countUser u (runPosts time ps s) = 1 := by
  induction ps generalizing s with
  | nil => exact h
  | cons p ps ih =>
      show countUser u (runPosts time ps (create_or_update_preferences time p s).2) = 1
      apply ih
      by_cases hpu : p.user_id = u
      · rw [post_countUser_of_eq time p s u hpu (by omega)]
      · rw [post_countUser_of_ne time p s u hpu]
        exact h

theorem post_allLocationNone (time : Nat → Nat) (p : PreferenceCreate) (s : DBState)
    (h : allLocationNone s = true) :
    allLocationNone (create_or_update_preferences time p s).2 = true := by
  unfold create_or_update_preferences
  unfold allLocationNone at h ⊢
  cases hfind : s.rows.find? (fun r => r.user_id == p.user_id) with
  | some r =>
      simp only [hfind]
      rw [replaceFirst_all (fun q => q.user_id == p.user_id)
        (fun r => r.location_area == none) (postUpd p (time s.tick)) (fun x => rfl) s.rows]
      exact h
  | none =>
      simp only [hfind]
      rw [List.all_append]
      simp [h]

theorem patch_allLocationNone (time : Nat → Nat) (p : PreferenceUpdate) (u : String)
    (s s' : DBState) (resp : PreferenceRead)
    (hok : update_user_preferences time p u s = .ok (resp, s'))
    (h : allLocationNone s = true) : allLocationNone s' = true := by
  unfold update_user_preferences at hok
  cases hfind : s.rows.find? (fun r => r.user_id == u) with
  | none => rw [hfind] at hok; exact absurd hok (by simp)
  | some r =>
      rw [hfind] at hok
      have hs' : s' = { s with
          rows := replaceFirst (fun q => q.user_id == u)
            (patchUpd p (time s.tick)) s.rows
          tick := s.tick + 1 } := by
        cases hok
        rfl
      rw [hs']
      unfold allLocationNone at h ⊢
      show (replaceFirst (fun q => q.user_id == u) (patchUpd p (time s.tick)) s.rows).all
        (fun r => r.location_area == none) = true
      rw [replaceFirst_all (fun q => q.user_id == u)
        (fun r => r.location_area == none) (patchUpd p (time s.tick)) (fun x => rfl) s.rows]
      exact h

theorem delete_allLocationNone (u : String) (s : DBState)
    (h : allLocationNone s = true) :
    allLocationNone (delete_user_preferences u s) = true := by
  unfold delete_user_preferences
  cases hfind : s.rows.find? (fun r => r.user_id == u) with
  | none => simpa using h
  | some r =>
      simp only [hfind]
      exact deleteFirst_all _ _ s.rows h

theorem applyOp_allLocationNone (time : Nat → Nat) (s : DBState) (op : Op)
    (h : allLocationNone s = true) : allLocationNone (applyOp time s op) = true := by
  cases op with
  | post p => exact post_allLocationNone time p s h
  | patchOp u p =>
      show allLocationNone
        (match update_user_preferences time p u s with
          | .ok x => x.2
          | .error _ => s) = true
      cases hres : update_user_preferences time p u s with
      | error e => exact h
      | ok x => exact patch_allLocationNone time p u s x.2 x.1 (by rw [hres]) h
  | deleteOp u => exact delete_allLocationNone u s h

theorem runOps_allLocationNone (time : Nat → Nat) (ops : List Op) (s : DBState)
    (h : allLocationNone s = true) : allLocationNone (runOps time ops s) = true := by
  induction ops generalizing s with
  | nil => exact h
  | cons op ops ih =>
      exact ih (applyOp time s op) (applyOp_allLocationNone time s op h)

theorem post_resp_location_none (time : Nat → Nat) (p : PreferenceCreate)
    (s : DBState) :
    (create_or_update_preferences time p s).1.location_area = none := by
  unfold create_or_update_preferences
  cases hfind : s.rows.find? (fun r => r.user_id == p.user_id) with
  | some r => simp [hfind, projectRead]
  | none => simp [hfind, projectRead]

theorem patch_resp_location_none (time : Nat → Nat) (p : PreferenceUpdate)
    (u : String) (s : DBState) :
    patchRespLocationNone (update_user_preferences time p u s) = true := by
  unfold update_user_preferences
  cases hfind : s.rows.find? (fun r => r.user_id == u) with
  | some r => simp [hfind, projectRead, patchRespLocationNone]
  | none => simp [hfind, patchRespLocationNone]

theorem read_resp_location_none (u : String) (s : DBState) :
    readRespLocationNone (get_user_preferences u s) = true := by
  unfold get_user_preferences
  cases hfind : s.rows.find? (fun r => r.user_id == u) with
  | some r => simp [hfind, projectRead, readRespLocationNone]
  | none => simp [hfind, readRespLocationNone]

theorem list_resp_location_none (s : DBState) :
    (get_all_preferences s).all (fun r => r.location_area == none) = true := by
  unfold get_all_preferences
  rw [List.all_eq_true]
  intro r hr
  rcases List.mem_map.mp hr with ⟨q, _, rfl⟩
  simp [projectRead]

theorem post_found_eq (time : Nat → Nat) (payload : PreferenceCreate)
    (s : DBState) (r : PreferencesDB)
    (hfind : s.rows.find? (fun q => q.user_id == payload.user_id) = some r) :
    create_or_update_preferences time payload s
      = (projectRead (postUpd payload (time s.tick) r),
         { s with
             rows := replaceFirst (fun q => q.user_id == payload.user_id)
               (postUpd payload (time s.tick)) s.rows
             tick := s.tick + 1 }) := by
  unfold create_or_update_preferences
  rw [hfind]

theorem patch_found_eq (time : Nat → Nat) (payload : PreferenceUpdate)
    (u : String) (s : DBState) (r : PreferencesDB)
    (hfind : s.rows.find? (fun q => q.user_id == u) = some r) :
    update_user_preferences time payload u s
      = .ok (projectRead (patchUpd payload (time s.tick) r),
             { s with
                 rows := replaceFirst (fun q => q.user_id == u)
                   (patchUpd payload (time s.tick)) s.rows
                 tick := s.tick + 1 }) := by
  unfold update_user_preferences
  rw [hfind]

theorem post_found_stored_row (time : Nat → Nat) (payload : PreferenceCreate)
    (s : DBState) (r : PreferencesDB)
    (hfind : s.rows.find? (fun q => q.user_id == payload.user_id) = some r) :
    (create_or_update_preferences time payload s).2.rows.find?
        (fun q => q.user_id == payload.user_id)
      = some (postUpd payload (time s.tick) r) := by
  rw [post_found_eq time payload s r hfind]
  show (replaceFirst (fun q => q.user_id == payload.user_id)
      (postUpd payload (time s.tick)) s.rows).find?
      (fun q => q.user_id == payload.user_id) = _
  rw [replaceFirst_find? (fun q => q.user_id == payload.user_id)
    (postUpd payload (time s.tick)) (fun x => rfl) s.rows, hfind]
  rfl

theorem patch_found_stored_row (time : Nat → Nat) (payload : PreferenceUpdate)
    (u : String) (s : DBState) (r : PreferencesDB)
    (hfind : s.rows.find? (fun q => q.user_id == u) = some r) :
    Except.map (fun x => x.2.rows.find? (fun q => q.user_id == u))
        (update_user_preferences time payload u s)
      = .ok (some (patchUpd payload (time s.tick) r)) := by
  rw [patch_found_eq time payload u s r hfind]
  show Except.ok ((replaceFirst (fun q => q.user_id == u)
      (patchUpd payload (time s.tick)) s.rows).find? (fun q => q.user_id == u)) = _
  rw [replaceFirst_find? (fun q => q.user_id == u)
    (patchUpd payload (time s.tick)) (fun x => rfl) s.rows, hfind]
  rfl

/-- C1: For every request payload containing a non-empty `location_area`, the
response to that call (POST / or PATCH /{userId}) and every subsequent read
for that user (GET /{userId} and GET /) has `location_area` absent/null. (The
handlers build every response through `projectRead`, which forces
`location_area := none`, so this holds for all requests and all states.) -/
theorem C1_location_area_never_in_responses (time t2 : Nat → Nat)
    (payload : PreferenceCreate) (l : List String)
    (hl : payload.location_area = some l) (hne : l ≠ [])
    (p2 : PreferenceUpdate) (u : String) (s s' s2 s3 : DBState) :
    (create_or_update_preferences time payload s).1.location_area = none ∧
    patchRespLocationNone (update_user_preferences t2 p2 u s') = true ∧
    readRespLocationNone (get_user_preferences u s2) = true ∧
    (get_all_preferences s3).all (fun r => r.location_area == none) = true :=
  ⟨post_resp_location_none time payload s,
   patch_resp_location_none t2 p2 u s',
   read_resp_location_none u s2,
   list_resp_location_none s3⟩

/-- C1 witness: the theorem instantiated at a concrete payload carrying the
non-empty `location_area` list from the spec's example. -/
theorem C1_witness :
    (create_or_update_preferences (fun t => t) samplePost sampleState).1.location_area = none ∧
    patchRespLocationNone
      (update_user_preferences (fun t => t) samplePatch "u1" sampleState) = true ∧
    readRespLocationNone (get_user_preferences "u1" sampleState) = true ∧
    (get_all_preferences sampleState).all (fun r => r.location_area == none) = true :=
  C1_location_area_never_in_responses (fun t => t) (fun t => t) samplePost
    ["Williamsburg", "Bushwick"] rfl (by decide) samplePatch "u1"
    sampleState sampleState sampleState sampleState

/-- C2 counterexample: the claim says the persisted layout has no
`location_area` column, but the `preferences` table
(src/models/preferences_sql.py line 14) does declare a nullable
`location_area` String(255) column. -/
theorem C2_location_area_column_exists :
    "location_area" ∈ preferencesDBColumns := by decide

/-- C2 (amended): the persisted layout does include a nullable
`location_area` column, but `location_area` from any payload never reaches a
storage write: after any sequence of mutating operations starting from a
state in which every stored row's `location_area` is NULL (in particular the
fresh empty database), every stored row's `location_area` is still NULL. -/
theorem C2_location_area_never_written (time : Nat → Nat) (ops : List Op)
    (s : DBState) (h : allLocationNone s = true) :
    allLocationNone (runOps time ops s) = true :=
  runOps_allLocationNone time ops s h

/-- C2 witness: a concrete run (POST with non-empty location_area, PATCH,
DELETE) from the empty database leaves every stored location_area NULL. -/
theorem C2_witness :
    allLocationNone emptyState = true ∧
    allLocationNone (runOps (fun t => t)
      [Op.post samplePost, Op.patchOp "u1" samplePatch, Op.deleteOp "u2"]
      emptyState) = true :=
  ⟨by decide,
   C2_location_area_never_written (fun t => t)
     [Op.post samplePost, Op.patchOp "u1" samplePatch, Op.deleteOp "u2"]
     emptyState (by decide)⟩

/-- C6: Not-Found is the only domain error (`ApiError` has a single
constructor) and is raised asymmetrically: GET /{userId} and PATCH /{userId}
succeed exactly when a record exists for the user_id, while POST / and
DELETE /{userId} never signal Not-Found: DELETE (204) merely removes the
first matching row, removing nothing when none exists, and POST always
leaves a record for the payload's user in place. -/
theorem C6_not_found_asymmetry (time : Nat → Nat) (p : PreferenceCreate)
    (pu : PreferenceUpdate) (u : String) (s : DBState) :
    (get_user_preferences u s).isOk
        = (s.rows.find? (fun r => r.user_id == u)).isSome ∧
    (update_user_preferences time pu u s).isOk
        = (s.rows.find? (fun r => r.user_id == u)).isSome ∧
    delete_user_preferences u s
        = { s with rows := deleteFirst (fun r => r.user_id == u) s.rows } ∧
    ((create_or_update_preferences time p s).2.rows.find?
        (fun r => r.user_id == p.user_id)).isSome = true := by
  refine ⟨?_, ?_, ?_, ?_⟩
  · unfold get_user_preferences
    cases hfind : s.rows.find? (fun r => r.user_id == u) with
    | some r => simp [hfind, Except.isOk, Except.toBool]
    | none => simp [hfind, Except.isOk, Except.toBool]
  · unfold update_user_preferences
    cases hfind : s.rows.find? (fun r => r.user_id == u) with
    | some r => simp [hfind, Except.isOk, Except.toBool]
    | none => simp [hfind, Except.isOk, Except.toBool]
  · unfold delete_user_preferences
    cases hfind : s.rows.find? (fun r => r.user_id == u) with
    | some r => simp [hfind]
    | none =>
        simp only [hfind]
        rw [deleteFirst_of_find?_none _ _ hfind]
  · unfold create_or_update_preferences
    cases hfind : s.rows.find? (fun r => r.user_id == p.user_id) with
    | some r =>
        simp only [hfind]
        rw [replaceFirst_find? (fun q => q.user_id == p.user_id)
          (postUpd p (time s.tick)) (fun x => rfl) s.rows, hfind]
        rfl
    | none =>
        simp only [hfind]
        rw [List.find?_append, hfind]
        simp

/-- C3: Full-replace law. Given an existing record with max_budget=4000,
min_size=900, rooms=2 for a user, a POST / call whose body has that user_id
and rooms=5 but omits max_budget and min_size (pydantic defaults them to
null) yields a stored record with max_budget=null, min_size=null, rooms=5:
all three fields are replaced from the payload even when unset, not merged. -/
theorem C3_full_replace_law (time : Nat → Nat) (s : DBState) (u : String)
    (r : PreferencesDB) (hfind : s.rows.find? (fun q => q.user_id == u) = some r)
    (hmb : r.max_budget = some 4000) (hms : r.min_size = some 900)
    (hrm : r.rooms = some 2) (payload : PreferenceCreate)
    (hu : payload.user_id = u) (h1 : payload.max_budget = none)
    (h2 : payload.min_size = none) (h3 : payload.rooms = some 5) :
    ((create_or_update_preferences time payload s).2.rows.find?
        (fun q => q.user_id == u)).map (fun q => (q.max_budget, q.min_size, q.rooms))
      = some (none, none, some 5) := by
  subst hu
  rw [post_found_stored_row time payload s r hfind]
  simp [postUpd, h1, h2, h3]

/-- C3 witness: the theorem at the sample record (4000, 900, 2 for user u1)
and the sample POST body carrying only user_id and rooms=5. -/
theorem C3_witness :
    ((create_or_update_preferences (fun t => t) samplePost sampleState).2.rows.find?
        (fun q => q.user_id == "u1")).map (fun q => (q.max_budget, q.min_size, q.rooms))
      = some (none, none, some 5) :=
  C3_full_replace_law (fun t => t) sampleState "u1" sampleRow rfl rfl rfl rfl
    samplePost rfl rfl rfl rfl

/-- C4: Sparse-merge law. Given an existing record with max_budget=4000,
min_size=900, rooms=2, a PATCH /{userId} with body containing only rooms=3
yields (in the response and in storage) a record with max_budget=4000,
min_size=900, rooms=3; fields not mentioned in the body are left untouched. -/
theorem C4_sparse_merge_law (time : Nat → Nat) (s : DBState) (u : String)
    (r : PreferencesDB) (hfind : s.rows.find? (fun q => q.user_id == u) = some r)
    (hmb : r.max_budget = some 4000) (hms : r.min_size = some 900)
    (hrm : r.rooms = some 2) (payload : PreferenceUpdate)
    (h1 : payload.max_budget = none) (h2 : payload.min_size = none)
    (h3 : payload.rooms = some (some 3)) :
    Except.map (fun x => (x.1.max_budget, x.1.min_size, x.1.rooms))
        (update_user_preferences time payload u s)
      = .ok (some 4000, some 900, some 3) ∧
    Except.map (fun x => (x.2.rows.find? (fun q => q.user_id == u)).map
        (fun q => (q.max_budget, q.min_size, q.rooms)))
        (update_user_preferences time payload u s)
      = .ok (some (some 4000, some 900, some 3)) := by
  constructor
  · rw [patch_found_eq time payload u s r hfind]
    simp [Except.map, projectRead, patchUpd, h1, h2, h3, hmb, hms]
  · rw [patch_found_eq time payload u s r hfind]
    show Except.ok (((replaceFirst (fun q => q.user_id == u)
        (patchUpd payload (time s.tick)) s.rows).find? (fun q => q.user_id == u)).map
        (fun q => (q.max_budget, q.min_size, q.rooms))) = _
    rw [replaceFirst_find? (fun q => q.user_id == u)
      (patchUpd payload (time s.tick)) (fun x => rfl) s.rows, hfind]
    simp [patchUpd, h1, h2, h3, hmb, hms]

/-- C4 witness: the theorem at the sample record and PATCH body {"rooms": 3}. -/
theorem C4_witness :
    Except.map (fun x => (x.1.max_budget, x.1.min_size, x.1.rooms))
        (update_user_preferences (fun t => t) samplePatch "u1" sampleState)
      = .ok (some 4000, some 900, some 3) ∧
    Except.map (fun x => (x.2.rows.find? (fun q => q.user_id == "u1")).map
        (fun q => (q.max_budget, q.min_size, q.rooms)))
        (update_user_preferences (fun t => t) samplePatch "u1" sampleState)
      = .ok (some (some 4000, some 900, some 3)) :=
  C4_sparse_merge_law (fun t => t) sampleState "u1" sampleRow rfl rfl rfl rfl
    samplePatch rfl rfl rfl

/-- C5: In PATCH /{userId} on an existing record, a field explicitly set to
null in the body (outer `some none`) counts as provided and clears the
stored value to null, while a field never mentioned (outer `none`) leaves
the stored value unchanged: the row written back is exactly the old row
with each of max_budget, min_size, rooms overwritten precisely when its key
was provided (`Option.getD`), plus the updated_at stamp. -/
theorem C5_patch_writes_exactly_provided_fields (time : Nat → Nat)
    (payload : PreferenceUpdate) (u : String) (s : DBState) (r : PreferencesDB)
    (hfind : s.rows.find? (fun q => q.user_id == u) = some r) :
    Except.map (fun x => x.2.rows.find? (fun q => q.user_id == u))
        (update_user_preferences time payload u s)
      = .ok (some
          { r with
              max_budget := payload.max_budget.getD r.max_budget
              min_size := payload.min_size.getD r.min_size
              rooms := payload.rooms.getD r.rooms
              updated_at := time s.tick }) :=
  patch_found_stored_row time payload u s r hfind

/-- C5 witness: the theorem at the sample record and PATCH body {"rooms": 3}. -/
theorem C5_witness :
    Except.map (fun x => x.2.rows.find? (fun q => q.user_id == "u1"))
        (update_user_preferences (fun t => t) samplePatch "u1" sampleState)
      = .ok (some
          { sampleRow with
              max_budget := samplePatch.max_budget.getD sampleRow.max_budget
              min_size := samplePatch.min_size.getD sampleRow.min_size
              rooms := samplePatch.rooms.getD sampleRow.rooms
              updated_at := 1 }) :=
  C5_patch_writes_exactly_provided_fields (fun t => t) samplePatch "u1"
    sampleState sampleRow rfl

/-- C9: For every successful mutation of an existing record (the update
branch of POST / and a successful PATCH /{userId}), the stored record's id
and created_at are unchanged (and so are user_id and location_area): only
max_budget, min_size, rooms and updated_at may change. -/
theorem C9_mutation_preserves_id_created_at (time : Nat → Nat)
    (p : PreferenceCreate) (pu : PreferenceUpdate) (s : DBState) (u : String)
    (r : PreferencesDB) (hu : p.user_id = u)
    (hfind : s.rows.find? (fun q => q.user_id == u) = some r) :
    ((create_or_update_preferences time p s).2.rows.find?
        (fun q => q.user_id == u)).map
        (fun q => (q.id, q.user_id, q.location_area, q.created_at))
      = some (r.id, r.user_id, r.location_area, r.created_at) ∧
    Except.map (fun x => (x.2.rows.find? (fun q => q.user_id == u)).map
        (fun q => (q.id, q.user_id, q.location_area, q.created_at)))
        (update_user_preferences time pu u s)
      = .ok (some (r.id, r.user_id, r.location_area, r.created_at)) := by
  constructor
  · subst hu
    rw [post_found_stored_row time p s r hfind]
    simp [postUpd]
  · rw [patch_found_eq time pu u s r hfind]
    show Except.ok (((replaceFirst (fun q => q.user_id == u)
        (patchUpd pu (time s.tick)) s.rows).find? (fun q => q.user_id == u)).map
        (fun q => (q.id, q.user_id, q.location_area, q.created_at))) = _
    rw [replaceFirst_find? (fun q => q.user_id == u)
      (patchUpd pu (time s.tick)) (fun x => rfl) s.rows, hfind]
    simp [patchUpd]

/-- C9 witness: the theorem at the sample record, the sample POST payload
and the sample PATCH body. -/
theorem C9_witness :
    ((create_or_update_preferences (fun t => t) samplePost sampleState).2.rows.find?
        (fun q => q.user_id == "u1")).map
        (fun q => (q.id, q.user_id, q.location_area, q.created_at))
      = some (sampleRow.id, sampleRow.user_id, sampleRow.location_area,
          sampleRow.created_at) ∧
    Except.map (fun x => (x.2.rows.find? (fun q => q.user_id == "u1")).map
        (fun q => (q.id, q.user_id, q.location_area, q.created_at)))
        (update_user_preferences (fun t => t) samplePatch "u1" sampleState)
      = .ok (some (sampleRow.id, sampleRow.user_id, sampleRow.location_area,
          sampleRow.created_at)) :=
  C9_mutation_preserves_id_created_at (fun t => t) samplePost samplePatch
    sampleState "u1" sampleRow rfl rfl

/-- C10: If a record exists for the user_id, a PATCH /{userId} whose body
provides no fields at all (empty object) succeeds (Except.ok, i.e. 200),
leaves max_budget, min_size and rooms unchanged both in the response and in
storage, and still refreshes updated_at to the current time. -/
theorem C10_empty_patch_refreshes_updated_at_only (time : Nat → Nat)
    (u : String) (s : DBState) (r : PreferencesDB)
    (hfind : s.rows.find? (fun q => q.user_id == u) = some r)
    (payload : PreferenceUpdate) (h1 : payload.max_budget = none)
    (h2 : payload.min_size = none) (h3 : payload.rooms = none)
    (h4 : payload.location_area = none) :
    Except.map (fun x => (x.1.max_budget, x.1.min_size, x.1.rooms, x.1.updated_at))
        (update_user_preferences time payload u s)
      = .ok (r.max_budget, r.min_size, r.rooms, time s.tick) ∧
    Except.map (fun x => (x.2.rows.find? (fun q => q.user_id == u)).map
        (fun q => (q.max_budget, q.min_size, q.rooms, q.updated_at)))
        (update_user_preferences time payload u s)
      = .ok (some (r.max_budget, r.min_size, r.rooms, time s.tick)) := by
  constructor
  · rw [patch_found_eq time payload u s r hfind]
    simp [Except.map, projectRead, patchUpd, h1, h2, h3]
  · rw [patch_found_eq time payload u s r hfind]
    show Except.ok (((replaceFirst (fun q => q.user_id == u)
        (patchUpd payload (time s.tick)) s.rows).find? (fun q => q.user_id == u)).map
        (fun q => (q.max_budget, q.min_size, q.rooms, q.updated_at))) = _
    rw [replaceFirst_find? (fun q => q.user_id == u)
      (patchUpd payload (time s.tick)) (fun x => rfl) s.rows, hfind]
    simp [patchUpd, h1, h2, h3]

theorem runPosts_countUser_exact (time : Nat → Nat) (u : String)
    (p : PreferenceCreate) (hpu : p.user_id = u) (ps : List PreferenceCreate) :
    ∀ s : DBState, countUser u s ≤ 1 → p ∈ ps →
      countUser u (runPosts time ps s) = 1 := by
  induction ps with
  | nil =>
      intro s h hmem
      cases hmem
  | cons a as ih =>
      intro s h hmem
      rcases List.mem_cons.mp hmem with rfl | hmem'
      · show countUser u (runPosts time as (create_or_update_preferences time p s).2) = 1
        exact runPosts_countUser_eq_one time u as _ (post_countUser_of_eq time p s u hpu h)
      · show countUser u (runPosts time as (create_or_update_preferences time a s).2) = 1
        by_cases hau : a.user_id = u
        · exact ih _ (by rw [post_countUser_of_eq time a s u hau h]) hmem'
        · exact ih _ (by rw [post_countUser_of_ne time a s u hau]; exact h) hmem'

/-- C7: Uniqueness. Starting from a state with at most one record for a
user, after any sequence of POST / calls that contains at least one call for
that user exactly one record exists for them, and after any sequence of
POST / calls whatsoever at most one record exists for them (so at most one
record per user_id at any time along the run). -/
theorem C7_user_record_uniqueness (time : Nat → Nat) (u : String) (s : DBState)
    (h : countUser u s ≤ 1) (ps qs : List PreferenceCreate)
    (p : PreferenceCreate) (hmem : p ∈ ps) (hpu : p.user_id = u) :
    countUser u (runPosts time ps s) = 1 ∧
    countUser u (runPosts time qs s) ≤ 1 :=
  ⟨runPosts_countUser_exact time u p hpu ps s h hmem,
   runPosts_countUser_le time u qs s h⟩

/-- C7 witness: one POST from the empty database leaves exactly one record
for user u1; two repeated POSTs leave at most one. -/
theorem C7_witness :
    countUser "u1" (runPosts (fun t => t) [samplePost] emptyState) = 1 ∧
    countUser "u1" (runPosts (fun t => t) [samplePost, samplePost] emptyState) ≤ 1 :=
  C7_user_record_uniqueness (fun t => t) "u1" emptyState (by decide)
    [samplePost] [samplePost, samplePost] samplePost (by decide) rfl

/-- C8 counterexample: the insert branch of POST / evaluates the
`created_at` and `updated_at` column defaults as two separate
`datetime.utcnow` reads (src/models/preferences_sql.py lines 17-18), so with
the strictly increasing clock `fun t => t` the record returned for a fresh
user has created_at = 1 but updated_at = 2; the claimed equality
`created_at = updated_at` fails. -/
theorem C8_insert_timestamps_can_differ :
    ¬ ((create_or_update_preferences (fun t => t) samplePost emptyState).1.created_at
        = (create_or_update_preferences (fun t => t) samplePost emptyState).1.updated_at) := by
  decide

/-- C8 (amended): the insert branch stamps created_at and updated_at with
two consecutive separate clock reads (after the handler's own discarded
read at main.py line 88), so the returned record satisfies
created_at = updated_at exactly when the clock does not advance between
those two reads, e.g. under any clock constant over the call. -/
theorem C8_insert_timestamps_agree_of_steady_clock (time : Nat → Nat)
    (payload : PreferenceCreate) (s : DBState)
    (hnone : s.rows.find? (fun r => r.user_id == payload.user_id) = none)
    (hclock : time (s.tick + 1) = time (s.tick + 2)) :
    (create_or_update_preferences time payload s).1.created_at = time (s.tick + 1) ∧
    (create_or_update_preferences time payload s).1.updated_at = time (s.tick + 2) ∧
    (create_or_update_preferences time payload s).1.created_at
      = (create_or_update_preferences time payload s).1.updated_at := by
  unfold create_or_update_preferences
  rw [hnone]
  exact ⟨rfl, rfl, hclock⟩

/-- C8 witness: under the constant clock, the inserted record's two
timestamps agree. -/
theorem C8_witness :
    (create_or_update_preferences (fun _ => 7) samplePost emptyState).1.created_at
      = (create_or_update_preferences (fun _ => 7) samplePost emptyState).1.updated_at :=
  (C8_insert_timestamps_agree_of_steady_clock (fun _ => 7) samplePost emptyState
    rfl rfl).2.2

/-- C10 witness: the theorem at the sample record and the empty PATCH body. -/
theorem C10_witness :
    Except.map (fun x => (x.1.max_budget, x.1.min_size, x.1.rooms, x.1.updated_at))
        (update_user_preferences (fun t => t) emptyPatch "u1" sampleState)
      = .ok (sampleRow.max_budget, sampleRow.min_size, sampleRow.rooms, 1) ∧
    Except.map (fun x => (x.2.rows.find? (fun q => q.user_id == "u1")).map
        (fun q => (q.max_budget, q.min_size, q.rooms, q.updated_at)))
        (update_user_preferences (fun t => t) emptyPatch "u1" sampleState)
      = .ok (some (sampleRow.max_budget, sampleRow.min_size, sampleRow.rooms, 1)) :=
  C10_empty_patch_refreshes_updated_at_only (fun t => t) "u1" sampleState
    sampleRow rfl emptyPatch rfl rfl rfl rfl

end Prefs
